import Mathlib

/-!
Shallow embedding of the Express backend in `src/server.js` (with the
`/token` variant kept in `src/unnamed/part_000`), and proofs about the
two-pass answer-fallback protocol of the `POST /ask` route, the
speech-synthesis gating, and the `GET /token` credential broker.

External effects (OpenAI thread/run/message/speech calls and the realtime
session fetch) are modelled by an environment record that fixes the outcome
of each upstream call; the handler is a pure function from configuration,
request body and environment to the list of upstream calls it issues and
the HTTP response it sends.
-/

namespace Sandbox

/-- Kind of a run creation: Pass 1 is constrained to file search over the
configured vector store (`tool_choice: file_search`), Pass 2 is
unconstrained (`server.js` lines 89 resp. 120). -/
inductive RunKind where
  | grounded
  | fallback
  deriving DecidableEq, Repr

/-- One upstream call issued by the `/ask` handler, in program order. -/
inductive UpstreamCall where
  | threadCreate
  | messageCreate (content : String)
  | runCreate (kind : RunKind)
  | runRetrieve
  | submitToolOutputs
  | messagesList
  | speechCreate (input : String)
  deriving DecidableEq, Repr

/-- Result of awaiting a JS promise chain: it may never resolve (the
unbounded polling loop), reject with an error message, or resolve. -/
inductive JsResult (α : Type) where
  | hang
  | threw (msg : String)
  | ret (a : α)
  deriving DecidableEq, Repr

/-- `run.last_error` as read on a terminal-failure status
(`server.js` line 60). -/
structure LastError where
  code : String
  message : String
  deriving DecidableEq, Repr

/-- One result of `runs.retrieve`: the fields the wait loop reads, plus the
outcome of the `submitToolOutputs` call that would be issued on seeing this
snapshot (`server.js` lines 46-55). -/
structure RunSnapshot where
  status : String
  required_action_type : Option String
  toolSubmitOk : Bool
  last_error : Option LastError
  deriving DecidableEq, Repr

/-- `content[i].text` of a thread message. -/
structure TextContent where
  value : Option String
  deriving DecidableEq, Repr

/-- One element of a thread message's `content` array. -/
structure MessageContent where
  text : Option TextContent
  deriving DecidableEq, Repr

/-- One message returned by `messages.list` (only the field chain
`content[0]?.text?.value` is ever read). -/
structure ThreadMessage where
  content : List MessageContent
  deriving DecidableEq, Repr

/-- The optional chain `data[0]?.content[0]?.text?.value` over the listed
messages (`server.js` lines 100 and 129). -/
def extractFirstValue (msgs : List ThreadMessage) : Option String :=
  match msgs.head? with
  | none => none
  | some m =>
    match m.content.head? with
    | none => none
    | some c =>
      match c.text with
      | none => none
      | some t => t.value

/-- JS `a || d` on an optionally-present string: an absent or empty string
is falsy and yields the default. -/
def jsOrString (o : Option String) (d : String) : String :=
  match o with
  | some s => if s == "" then d else s
  | none => d

/-- JS truthiness of an optionally-present string (`if (vectorStoreId)`,
`if (!userText)`): absent or empty is falsy. -/
def jsTruthyOptStr (o : Option String) : Bool :=
  match o with
  | some s => !(s == "")
  | none => false

/-- JS `process.env.X || d` for string configuration values
(`server.js` lines 13-22). -/
def envOr (v : Option String) (d : String) : String :=
  match v with
  | some s => if s == "" then d else s
  | none => d

/-- Default of `FALLBACK_CLARIFICATION_PROMPT` (`server.js` line 22). -/
def defaultFallbackClarificationPrompt : String :=
  "The previous answer was not detailed enough. Please try answering again using your broader knowledge and context from our conversation so far."

/-- Default of `FALLBACK_STRATEGY` (`server.js` line 21). -/
def defaultFallbackStrategy : String := "RETRY_NO_ADDITIONAL_PROMPT"

/-- Process configuration as loaded from the environment
(`server.js` lines 13-22). The two length thresholds are the
`parseInt` results of their environment variables. -/
structure Config where
  vectorStoreId : Option String
  fallbackReplyMinLength : Int
  speechReplyMinLength : Int
  fallbackStrategy : String
  fallbackClarificationPrompt : String
  deriving DecidableEq, Repr

/-- JSON body of a `POST /ask` request: `{ text, user_id }`. Only `text`
is ever read by the handler. -/
structure AskBody where
  text : Option String
  user_id : Option String
  deriving DecidableEq, Repr

/-- Outcomes of every upstream call the `/ask` handler may issue, fixed in
advance. A poll script is the finite sequence of `runs.retrieve` outcomes;
if the loop consumes the whole script while still waiting, the request
hangs (the loop is unbounded in the source). -/
structure AskEnv where
  threadCreate : Except String String
  userMessageCreate : Except String Unit
  pass1RunCreate : Except String String
  pass1Poll : List (Except String RunSnapshot)
  pass1MessagesList : Except String (List ThreadMessage)
  clarificationMessageCreate : Except String Unit
  pass2RunCreate : Except String String
  pass2Poll : List (Except String RunSnapshot)
  pass2MessagesList : Except String (List ThreadMessage)
  speech : Except String String
  deriving Repr

/-- HTTP response of the `/ask` route; `hang` records a request that never
completes (unbounded polling). -/
inductive AskResponse where
  | ok (text : String) (audio : Option String)
  | badRequest (error : String)
  | serverError (error : String) (details : String)
  | hang
  deriving DecidableEq, Repr

/-- Statuses the wait loop keeps polling on (`server.js` line 42). -/
def isWaitingStatus (s : String) : Bool :=
  s == "queued" || s == "in_progress" || s == "requires_action"

/-- Terminal failure statuses (`server.js` line 59). -/
def isFailureStatus (s : String) : Bool :=
  s == "failed" || s == "expired" || s == "cancelled"

/-- The error message thrown on a terminal failure status
(`server.js` lines 60-62). -/
def runFailureMessage (runId : String) (snap : RunSnapshot) : String :=
  let errorDetails :=
    match snap.last_error with
    | some le => "Code: " ++ le.code ++ ", Message: " ++ le.message
    | none => "No specific error details provided."
  "Run " ++ runId ++ " " ++ snap.status ++ ". " ++ errorDetails

/-- The error message thrown when `submitToolOutputs` rejects
(`server.js` line 54). -/
def toolSubmitFailureMessage (runId : String) : String :=
  "Run " ++ runId ++ " failed during tool output submission."

/-- Exit of the polling loop (`server.js` lines 59-64): a terminal failure
status throws the diagnostic message, any other non-waiting status is
returned. -/
def waitExit (runId : String) (cur : RunSnapshot) :
    List UpstreamCall × JsResult RunSnapshot :=
  if isFailureStatus cur.status then
    ([], .threw (runFailureMessage runId cur))
  else
    ([], .ret cur)

/-- The polling loop of `waitForRunCompletion` (`server.js` lines 42-64):
`cur` is the last retrieved snapshot, the list holds the outcomes of the
remaining `runs.retrieve` calls. While the status is a waiting status the
loop retrieves again; a freshly retrieved `requires_action` snapshot of
type `submit_tool_outputs` triggers a `submitToolOutputs` call whose
failure is rethrown. Exhausting the script while still waiting models the
unbounded loop never terminating. -/
def waitLoop (runId : String) :
    RunSnapshot → List (Except String RunSnapshot) →
      List UpstreamCall × JsResult RunSnapshot
  | cur, [] =>
    if isWaitingStatus cur.status then ([], .hang) else waitExit runId cur
  | cur, .error e :: _ =>
    if isWaitingStatus cur.status then ([.runRetrieve], .threw e)
    else waitExit runId cur
  | cur, .ok nxt :: rest =>
    if isWaitingStatus cur.status then
      if nxt.status == "requires_action" &&
          nxt.required_action_type == some "submit_tool_outputs" then
        if nxt.toolSubmitOk then
          let r := waitLoop runId nxt rest
          (.runRetrieve :: .submitToolOutputs :: r.1, r.2)
        else
          ([.runRetrieve, .submitToolOutputs], .threw (toolSubmitFailureMessage runId))
      else
        let r := waitLoop runId nxt rest
        (.runRetrieve :: r.1, r.2)
    else waitExit runId cur

/-- `waitForRunCompletion` (`server.js` lines 40-65): one initial
`runs.retrieve`, then the polling loop. -/
def waitForRunCompletion (runId : String) (script : List (Except String RunSnapshot)) :
    List UpstreamCall × JsResult RunSnapshot :=
  match script with
  | [] => ([], .hang)
  | .error e :: _ => ([.runRetrieve], .threw e)
  | .ok first :: rest =>
    let r := waitLoop runId first rest
    (.runRetrieve :: r.1, r.2)

/-- Pass 1 (`server.js` lines 86-108): skipped when no vector store is
configured; otherwise a grounded run whose every error is caught and
mapped to the empty reply. Returns `none` when the wait hangs, otherwise
`some reply`. -/
def runPass1 (cfg : Config) (env : AskEnv) : List UpstreamCall × Option String :=
  if jsTruthyOptStr cfg.vectorStoreId then
    match env.pass1RunCreate with
    | .error _ => ([.runCreate .grounded], some "")
    | .ok runId =>
      match waitForRunCompletion runId env.pass1Poll with
      | (wt, .hang) => (.runCreate .grounded :: wt, none)
      | (wt, .threw _) => (.runCreate .grounded :: wt, some "")
      | (wt, .ret _) =>
        match env.pass1MessagesList with
        | .error _ => (.runCreate .grounded :: wt ++ [.messagesList], some "")
        | .ok msgs =>
          (.runCreate .grounded :: wt ++ [.messagesList],
            some (jsOrString (extractFirstValue msgs) ""))
  else
    ([], some "")

/-- The placeholder reply substituted when Pass 2 extraction yields
nothing (`server.js` line 134). -/
def fallbackPlaceholder : String := "No useful answer from fallback."

/-- The uncaught tail of Pass 2 (`server.js` lines 120-135): create the
unconstrained run, await it, list the newest message and extract its text,
substituting the placeholder when extraction yields nothing. Errors
propagate to the route-level catch. -/
def runPass2Run (env : AskEnv) : List UpstreamCall × JsResult String :=
  match env.pass2RunCreate with
  | .error e => ([.runCreate .fallback], .threw e)
  | .ok runId =>
    match waitForRunCompletion runId env.pass2Poll with
    | (wt, .hang) => (.runCreate .fallback :: wt, .hang)
    | (wt, .threw e) => (.runCreate .fallback :: wt, .threw e)
    | (wt, .ret _) =>
      match env.pass2MessagesList with
      | .error e => (.runCreate .fallback :: wt ++ [.messagesList], .threw e)
      | .ok msgs =>
        (.runCreate .fallback :: wt ++ [.messagesList],
          .ret (jsOrString (extractFirstValue msgs) fallbackPlaceholder))

/-- Pass 2 (`server.js` lines 110-136): when the strategy is
`RETRY_WITH_CLARIFICATION_PROMPT` and the clarification prompt is truthy,
the clarification message is appended to the thread first; its failure
propagates. -/
def runPass2 (cfg : Config) (env : AskEnv) : List UpstreamCall × JsResult String :=
  if cfg.fallbackStrategy == "RETRY_WITH_CLARIFICATION_PROMPT" &&
      !(cfg.fallbackClarificationPrompt == "") then
    match env.clarificationMessageCreate with
    | .error e => ([.messageCreate cfg.fallbackClarificationPrompt], .threw e)
    | .ok _ =>
      match runPass2Run env with
      | (rt, r2) => (.messageCreate cfg.fallbackClarificationPrompt :: rt, r2)
  else
    runPass2Run env

/-- Outcome of the `/ask` route up to (and excluding) speech synthesis. -/
inductive CoreOut where
  | badReq
  | err (details : String)
  | hang
  | reply (text : String)
  deriving DecidableEq, Repr

/-- JS `a < b` for a string length against a `parseInt` threshold. -/
def jsLtInt (n : Nat) (k : Int) : Bool := (n : Int) < k

/-- JS `a >= b` for a string length against a `parseInt` threshold. -/
def jsGeInt (n : Nat) (k : Int) : Bool := k ≤ (n : Int)

/-- The `/ask` route body up to the speech step (`server.js` lines 68-136):
validate `text`, create the thread, append the user message, run Pass 1,
and when the Pass 1 reply is falsy or shorter than the grounded minimum
run Pass 2. Uncaught errors become `CoreOut.err` (the route-level catch). -/
def askCore (cfg : Config) (body : AskBody) (env : AskEnv) :
    List UpstreamCall × CoreOut :=
  match body.text with
  | none => ([], .badReq)
  | some userText =>
    if userText == "" then ([], .badReq)
    else
      match env.threadCreate with
      | .error e => ([.threadCreate], .err e)
      | .ok _ =>
        match env.userMessageCreate with
        | .error e => ([.threadCreate, .messageCreate userText], .err e)
        | .ok _ =>
          match runPass1 cfg env with
          | (t1, none) =>
            (UpstreamCall.threadCreate :: .messageCreate userText :: t1, .hang)
          | (t1, some reply1) =>
            if reply1 == "" || jsLtInt reply1.length cfg.fallbackReplyMinLength then
              match runPass2 cfg env with
              | (t2, .hang) =>
                (UpstreamCall.threadCreate :: .messageCreate userText :: (t1 ++ t2), .hang)
              | (t2, .threw e) =>
                (UpstreamCall.threadCreate :: .messageCreate userText :: (t1 ++ t2), .err e)
              | (t2, .ret reply2) =>
                (UpstreamCall.threadCreate :: .messageCreate userText :: (t1 ++ t2),
                  .reply reply2)
            else
              (UpstreamCall.threadCreate :: .messageCreate userText :: t1, .reply reply1)

/-- The speech-synthesis step (`server.js` lines 138-155): attempted only
for a truthy reply whose length meets the speech minimum; any synthesis
error is caught and leaves the audio absent. Returns the calls issued and
the base64 audio, if produced. -/
def speechStage (cfg : Config) (env : AskEnv) (reply : String) :
    List UpstreamCall × Option String :=
  if !(reply == "") && jsGeInt reply.length cfg.speechReplyMinLength then
    match env.speech with
    | .error _ => ([.speechCreate reply], none)
    | .ok b64 => ([.speechCreate reply], some b64)
  else
    ([], none)

/-- The full `POST /ask` route (`server.js` lines 68-165): core, then the
speech step, then the JSON response; the audio field is a data URI when
the base64 audio is truthy and `null` otherwise. -/
def askHandler (cfg : Config) (body : AskBody) (env : AskEnv) :
    List UpstreamCall × AskResponse :=
  match askCore cfg body env with
  | (t, .badReq) => (t, .badRequest "Missing text in request body")
  | (t, .err e) => (t, .serverError "Failed to process assistant response" e)
  | (t, .hang) => (t, .hang)
  | (t, .reply s) =>
    match speechStage cfg env s with
    | (st, some b64) =>
      (t ++ st, .ok s (if b64 == "" then none else some ("data:audio/mp3;base64," ++ b64)))
    | (st, none) => (t ++ st, .ok s none)

/-! ### The `GET /token` broker, in both source variants -/

/-- `client_secret` of the realtime session object; `value` is absent when
the upstream returned no usable credential. -/
structure ClientSecret where
  value : Option String
  expires_at : Int
  deriving DecidableEq, Repr

/-- Parsed JSON body of the realtime-sessions response; only
`client_secret` is ever inspected. -/
structure SessionData where
  client_secret : Option ClientSecret
  deriving DecidableEq, Repr

/-- Outcome of the `fetch` to `v1/realtime/sessions`: HTTP-level `ok` and
`status`, the raw body text, and the result of `response.json()`. -/
structure FetchOutcome where
  ok : Bool
  status : Nat
  bodyText : String
  jsonData : Except String SessionData
  deriving Repr

/-- HTTP response of a `/token` route. `okRaw` is the raw pass-through of
the vendor session object; `okToken` is the reshaped
`{ token, expires_in }` body; both carry status 200. -/
inductive TokenResponse where
  | okRaw (data : SessionData)
  | okToken (token : String) (expiresIn : Int)
  | serverError (error : String)
  deriving DecidableEq, Repr

/-- The `GET /token` route of `src/server.js` (lines 168-216): any fetch
or JSON-parse rejection is caught as a 500; otherwise the parsed session
object is returned verbatim with status 200, with no check of `ok` or of
`client_secret`. -/
def tokenRoute (fetchResult : Except String FetchOutcome) : TokenResponse :=
  match fetchResult with
  | .error _ => .serverError "Failed to generate token"
  | .ok resp =>
    match resp.jsonData with
    | .error _ => .serverError "Failed to generate token"
    | .ok data => .okRaw data

/-- The `GET /token` route of `src/unnamed/part_000` (lines 216-280): a
non-ok HTTP status is a 500; a parsed body whose `client_secret.value` is
absent or falsy is a 500; otherwise the credential and its expiry are
returned. -/
def tokenRouteChecked (fetchResult : Except String FetchOutcome) : TokenResponse :=
  match fetchResult with
  | .error _ => .serverError "Token generation failed"
  | .ok resp =>
    if !resp.ok then
      .serverError "OpenAI token fetch failed"
    else
      match resp.jsonData with
      | .error _ => .serverError "Token generation failed"
      | .ok data =>
        match data.client_secret with
        | none => .serverError "Missing client_secret in OpenAI response"
        | some cs =>
          match cs.value with
          | none => .serverError "Missing client_secret in OpenAI response"
          | some v =>
            if v == "" then .serverError "Missing client_secret in OpenAI response"
            else .okToken v cs.expires_at

/-- The parsed session body lacks a usable credential: no `client_secret`,
or no `value` on it, or an empty (falsy) `value`. -/
def lacksCredential (data : SessionData) : Bool :=
  match data.client_secret with
  | none => true
  | some cs =>
    match cs.value with
    | none => true
    | some v => v == ""

/-! ### Call-classification helpers -/

/-- Is the call a run creation (a Generation Attempt)? -/
def isRunCreate : UpstreamCall → Bool
  | .runCreate _ => true
  | _ => false

/-- Is the call a run creation of the given kind? -/
def isRunCreateKind (k : RunKind) : UpstreamCall → Bool
  | .runCreate k2 => k2 == k
  | _ => false

/-- Is the call a thread creation? -/
def isThreadCreate : UpstreamCall → Bool
  | .threadCreate => true
  | _ => false

/-- Is the call a speech-synthesis request? -/
def isSpeechCreate : UpstreamCall → Bool
  | .speechCreate _ => true
  | _ => false

/-- Is the call a message append? -/
def isMsgCreate : UpstreamCall → Bool
  | .messageCreate _ => true
  | _ => false

/-! ### Trace lemmas for the polling loop -/

theorem waitExit_fst (runId : String) (cur : RunSnapshot) :
    (waitExit runId cur).1 = [] := by
  unfold waitExit; split <;> rfl

theorem waitLoop_calls (runId : String) (s : List (Except String RunSnapshot))
    (cur : RunSnapshot) :
    ∀ c ∈ (waitLoop runId cur s).1,
      c = UpstreamCall.runRetrieve ∨ c = UpstreamCall.submitToolOutputs := by
  induction s generalizing cur with
  | nil =>
    intro c hc
    unfold waitLoop at hc
    split at hc
    · simp at hc
    · rw [waitExit_fst] at hc; simp at hc
  | cons hd tl ih =>
    intro c hc
    cases hd with
    | error e =>
      unfold waitLoop at hc
      split at hc
      · simp at hc; exact Or.inl hc
      · rw [waitExit_fst] at hc; simp at hc
    | ok nxt =>
      unfold waitLoop at hc
      split at hc
      · split at hc
        · split at hc
          · simp only [List.mem_cons] at hc
            rcases hc with h | h | h
            · exact Or.inl h
            · exact Or.inr h
            · exact ih nxt c h
          · simp only [List.mem_cons, List.mem_singleton] at hc
            rcases hc with h | h | h
            · exact Or.inl h
            · exact Or.inr h
            · simp at h
        · simp only [List.mem_cons] at hc
          rcases hc with h | h
          · exact Or.inl h
          · exact ih nxt c h
      · rw [waitExit_fst] at hc; simp at hc

theorem waitForRunCompletion_calls (runId : String)
    (s : List (Except String RunSnapshot)) :
    ∀ c ∈ (waitForRunCompletion runId s).1,
      c = UpstreamCall.runRetrieve ∨ c = UpstreamCall.submitToolOutputs := by
  intro c hc
  cases s with
  | nil => simp [waitForRunCompletion] at hc
  | cons hd tl =>
    cases hd with
    | error e =>
      simp [waitForRunCompletion] at hc
      exact Or.inl hc
    | ok first =>
      simp only [waitForRunCompletion, List.mem_cons] at hc
      rcases hc with h | h
      · exact Or.inl h
      · exact waitLoop_calls runId tl first c h

/-- Any predicate false on the two poll-call shapes counts zero in a wait
trace. -/
theorem waitForRunCompletion_countP (runId : String)
    (s : List (Except String RunSnapshot)) (p : UpstreamCall → Bool)
    (h1 : p .runRetrieve = false) (h2 : p .submitToolOutputs = false) :
    (waitForRunCompletion runId s).1.countP p = 0 := by
  rw [List.countP_eq_zero]
  intro c hc
  rcases waitForRunCompletion_calls runId s c hc with h | h <;>
    simp [h, h1, h2]

/-! ### Trace lemmas for the two passes -/

theorem runPass1_countP (cfg : Config) (env : AskEnv) (p : UpstreamCall → Bool)
    (h1 : p (.runCreate .grounded) = false) (h2 : p .runRetrieve = false)
    (h3 : p .submitToolOutputs = false) (h4 : p .messagesList = false) :
    (runPass1 cfg env).1.countP p = 0 := by
  unfold runPass1
  split
  · rcases henv : env.pass1RunCreate with e | rid
    · simp [henv, h1]
    · rcases hw : waitForRunCompletion rid env.pass1Poll with ⟨wt, res⟩
      have hw1 : wt.countP p = 0 := by
        have h := waitForRunCompletion_countP rid env.pass1Poll p h2 h3
        rw [hw] at h; exact h
      simp only [henv, hw]
      cases res with
      | hang => simp [List.countP_cons, h1, hw1]
      | threw m => simp [List.countP_cons, h1, hw1]
      | ret s =>
        rcases hml : env.pass1MessagesList with e | msgs <;>
          simp [hml, List.countP_cons, List.countP_append, h1, h4, hw1]
  · simp

theorem runPass1_runCount (cfg : Config) (env : AskEnv) :
    (runPass1 cfg env).1.countP isRunCreate ≤ 1 := by
  unfold runPass1
  split
  · rcases henv : env.pass1RunCreate with e | rid
    · simp [henv, isRunCreate]
    · rcases hw : waitForRunCompletion rid env.pass1Poll with ⟨wt, res⟩
      have hw1 : wt.countP isRunCreate = 0 := by
        have h := waitForRunCompletion_countP rid env.pass1Poll isRunCreate rfl rfl
        rw [hw] at h; exact h
      simp only [henv, hw]
      cases res with
      | hang => simp [List.countP_cons, isRunCreate, hw1]
      | threw m => simp [List.countP_cons, isRunCreate, hw1]
      | ret s =>
        rcases hml : env.pass1MessagesList with e | msgs <;>
          simp [hml, List.countP_cons, List.countP_append, isRunCreate, hw1]
  · simp

theorem runPass2Run_countP (env : AskEnv) (p : UpstreamCall → Bool)
    (h1 : p (.runCreate .fallback) = false) (h2 : p .runRetrieve = false)
    (h3 : p .submitToolOutputs = false) (h4 : p .messagesList = false) :
    (runPass2Run env).1.countP p = 0 := by
  unfold runPass2Run
  rcases henv : env.pass2RunCreate with e | rid
  · simp [henv, h1]
  · rcases hw : waitForRunCompletion rid env.pass2Poll with ⟨wt, res⟩
    have hw1 : wt.countP p = 0 := by
      have h := waitForRunCompletion_countP rid env.pass2Poll p h2 h3
      rw [hw] at h; exact h
    simp only [henv, hw]
    cases res with
    | hang => simp [List.countP_cons, h1, hw1]
    | threw m => simp [List.countP_cons, h1, hw1]
    | ret s =>
      rcases hml : env.pass2MessagesList with e | msgs <;>
        simp [hml, List.countP_cons, List.countP_append, h1, h4, hw1]

/-- Every branch of the Pass 2 tail issues exactly one fallback run
creation. -/
theorem runPass2Run_fallbackCount (env : AskEnv) :
    (runPass2Run env).1.countP (isRunCreateKind .fallback) = 1 := by
  unfold runPass2Run
  rcases henv : env.pass2RunCreate with e | rid
  · simp [henv, isRunCreateKind]
  · rcases hw : waitForRunCompletion rid env.pass2Poll with ⟨wt, res⟩
    have hw1 : wt.countP (isRunCreateKind .fallback) = 0 := by
      have h := waitForRunCompletion_countP rid env.pass2Poll (isRunCreateKind .fallback) rfl rfl
      rw [hw] at h; exact h
    simp only [henv, hw]
    cases res with
    | hang => simp [List.countP_cons, isRunCreateKind, hw1]
    | threw m => simp [List.countP_cons, isRunCreateKind, hw1]
    | ret s =>
      rcases hml : env.pass2MessagesList with e | msgs <;>
        simp [hml, List.countP_cons, List.countP_append, isRunCreateKind, hw1]

theorem runPass2Run_runCount (env : AskEnv) :
    (runPass2Run env).1.countP isRunCreate = 1 := by
  unfold runPass2Run
  rcases henv : env.pass2RunCreate with e | rid
  · simp [henv, isRunCreate]
  · rcases hw : waitForRunCompletion rid env.pass2Poll with ⟨wt, res⟩
    have hw1 : wt.countP isRunCreate = 0 := by
      have h := waitForRunCompletion_countP rid env.pass2Poll isRunCreate rfl rfl
      rw [hw] at h; exact h
    simp only [henv, hw]
    cases res with
    | hang => simp [List.countP_cons, isRunCreate, hw1]
    | threw m => simp [List.countP_cons, isRunCreate, hw1]
    | ret s =>
      rcases hml : env.pass2MessagesList with e | msgs <;>
        simp [hml, List.countP_cons, List.countP_append, isRunCreate, hw1]

/-- The Pass 2 tail always begins with the fallback run creation. -/
theorem runPass2Run_head (env : AskEnv) :
    ∃ rest, (runPass2Run env).1 = .runCreate .fallback :: rest := by
  unfold runPass2Run
  rcases henv : env.pass2RunCreate with e | rid
  · exact ⟨[], rfl⟩
  · rcases hw : waitForRunCompletion rid env.pass2Poll with ⟨wt, res⟩
    simp only [henv, hw]
    cases res with
    | hang => exact ⟨wt, rfl⟩
    | threw m => exact ⟨wt, rfl⟩
    | ret s =>
      rcases hml : env.pass2MessagesList with e | msgs <;> simp [hml]

theorem runPass2_countP (cfg : Config) (env : AskEnv) (p : UpstreamCall → Bool)
    (h0 : ∀ s, p (.messageCreate s) = false)
    (h1 : p (.runCreate .fallback) = false) (h2 : p .runRetrieve = false)
    (h3 : p .submitToolOutputs = false) (h4 : p .messagesList = false) :
    (runPass2 cfg env).1.countP p = 0 := by
  have hr := runPass2Run_countP env p h1 h2 h3 h4
  unfold runPass2
  split
  · rcases hcm : env.clarificationMessageCreate with e | u
    · simp [hcm, h0]
    · rcases hq : runPass2Run env with ⟨rt, r2⟩
      have : rt.countP p = 0 := by rw [hq] at hr; exact hr
      simp [hcm, hq, List.countP_cons, h0, this]
  · exact hr

theorem runPass2_runCount (cfg : Config) (env : AskEnv) :
    (runPass2 cfg env).1.countP isRunCreate ≤ 1 := by
  have hr := runPass2Run_runCount env
  unfold runPass2
  split
  · rcases hcm : env.clarificationMessageCreate with e | u
    · simp [hcm, isRunCreate]
    · rcases hq : runPass2Run env with ⟨rt, r2⟩
      have : rt.countP isRunCreate = 1 := by rw [hq] at hr; exact hr
      simp [hcm, hq, List.countP_cons, isRunCreate, this]
  · rw [hr]

/-- Provided the clarification append does not fail when the strategy
requires it, Pass 2 issues exactly one fallback run creation. -/
theorem runPass2_fallbackCount (cfg : Config) (env : AskEnv)
    (hclar : cfg.fallbackStrategy = "RETRY_WITH_CLARIFICATION_PROMPT" →
      env.clarificationMessageCreate = .ok ()) :
    (runPass2 cfg env).1.countP (isRunCreateKind .fallback) = 1 := by
  have hr := runPass2Run_fallbackCount env
  unfold runPass2
  split
  case isTrue h =>
    have hstrat : cfg.fallbackStrategy = "RETRY_WITH_CLARIFICATION_PROMPT" := by
      have hb := (Bool.and_eq_true _ _).mp h
      exact eq_of_beq hb.1
    rw [hclar hstrat]
    rcases hq : runPass2Run env with ⟨rt, r2⟩
    have : rt.countP (isRunCreateKind .fallback) = 1 := by rw [hq] at hr; exact hr
    simp [hq, List.countP_cons, isRunCreateKind, this]
  case isFalse h => exact hr

/-- When the strategy is not the clarification strategy, Pass 2 appends no
message at all. -/
theorem runPass2_msgCount_of_other_strategy (cfg : Config) (env : AskEnv)
    (h : cfg.fallbackStrategy ≠ "RETRY_WITH_CLARIFICATION_PROMPT") :
    (runPass2 cfg env).1.countP isMsgCreate = 0 := by
  have hb : (cfg.fallbackStrategy == "RETRY_WITH_CLARIFICATION_PROMPT") = false := by
    rcases hc : cfg.fallbackStrategy == "RETRY_WITH_CLARIFICATION_PROMPT" with _ | _
    · rfl
    · exact absurd (eq_of_beq hc) h
  unfold runPass2
  rw [hb]
  simp only [Bool.false_and, if_neg (Bool.false_ne_true)]
  exact runPass2Run_countP env isMsgCreate rfl rfl rfl rfl

/-! ### Speech-stage and core-level lemmas -/

theorem speechStage_countP (cfg : Config) (env : AskEnv) (s : String)
    (p : UpstreamCall → Bool) (h : p (.speechCreate s) = false) :
    (speechStage cfg env s).1.countP p = 0 := by
  unfold speechStage
  split
  · rcases hs : env.speech with e | b64 <;> simp [hs, h]
  · simp

theorem askCore_countP (cfg : Config) (body : AskBody) (env : AskEnv)
    (p : UpstreamCall → Bool)
    (hthread : p .threadCreate = false) (hmsg : ∀ s, p (.messageCreate s) = false)
    (hg : p (.runCreate .grounded) = false) (hf : p (.runCreate .fallback) = false)
    (hr : p .runRetrieve = false) (hs : p .submitToolOutputs = false)
    (hl : p .messagesList = false) :
    (askCore cfg body env).1.countP p = 0 := by
  have hp1 := runPass1_countP cfg env p hg hr hs hl
  have hp2 := runPass2_countP cfg env p hmsg hf hr hs hl
  unfold askCore
  rcases hbt : body.text with _ | userText
  · simp
  · by_cases hue : userText = ""
    · simp [hue]
    · rcases htc : env.threadCreate with e | tid
      · simp [hue, htc, hthread]
      · rcases hmc : env.userMessageCreate with e | u
        · simp [hue, htc, hmc, hthread, hmsg]
        · rcases hp : runPass1 cfg env with ⟨t1, _ | reply1⟩ <;>
            (have ht1 : t1.countP p = 0 := by rw [hp] at hp1; exact hp1)
          · simp [hue, htc, hmc, hp, List.countP_cons, hthread, hmsg, ht1]
          · by_cases hcond :
              reply1 = "" ∨ jsLtInt reply1.length cfg.fallbackReplyMinLength = true
            · rcases hq : runPass2 cfg env with ⟨t2, _ | e2 | s2⟩ <;>
                (have ht2 : t2.countP p = 0 := by rw [hq] at hp2; exact hp2) <;>
                simp [hue, htc, hmc, hp, hcond, hq, List.countP_cons,
                  List.countP_append, hthread, hmsg, ht1, ht2]
            · simp [hue, htc, hmc, hp, hcond, List.countP_cons, hthread, hmsg, ht1]

theorem askCore_runCount (cfg : Config) (body : AskBody) (env : AskEnv) :
    (askCore cfg body env).1.countP isRunCreate ≤ 2 := by
  have hp1 := runPass1_runCount cfg env
  have hp2 := runPass2_runCount cfg env
  unfold askCore
  rcases hbt : body.text with _ | userText
  · simp
  · by_cases hue : userText = ""
    · simp [hue]
    · rcases htc : env.threadCreate with e | tid
      · simp [hue, htc, isRunCreate]
      · rcases hmc : env.userMessageCreate with e | u
        · simp [hue, htc, hmc, isRunCreate]
        · rcases hp : runPass1 cfg env with ⟨t1, _ | reply1⟩ <;>
            (have ht1 : t1.countP isRunCreate ≤ 1 := by rw [hp] at hp1; exact hp1)
          · simp [hue, htc, hmc, hp, List.countP_cons, isRunCreate]
            omega
          · by_cases hcond :
              reply1 = "" ∨ jsLtInt reply1.length cfg.fallbackReplyMinLength = true
            · rcases hq : runPass2 cfg env with ⟨t2, _ | e2 | s2⟩ <;>
                (have ht2 : t2.countP isRunCreate ≤ 1 := by rw [hq] at hp2; exact hp2) <;>
                (simp [hue, htc, hmc, hp, hcond, hq, List.countP_cons,
                  List.countP_append, isRunCreate]; omega)
            · simp [hue, htc, hmc, hp, hcond, List.countP_cons, isRunCreate]
              omega

theorem askCore_threadCount (cfg : Config) (body : AskBody) (env : AskEnv)
    (userText : String) (hbt : body.text = some userText) (hne : userText ≠ "") :
    (askCore cfg body env).1.countP isThreadCreate = 1 := by
  have hp1 := runPass1_countP cfg env isThreadCreate rfl rfl rfl rfl
  have hp2 := runPass2_countP cfg env isThreadCreate (fun _ => rfl) rfl rfl rfl rfl
  unfold askCore
  rw [hbt]
  rcases htc : env.threadCreate with e | tid
  · simp [hne, htc, isThreadCreate]
  · rcases hmc : env.userMessageCreate with e | u
    · simp [hne, htc, hmc, isThreadCreate]
    · rcases hp : runPass1 cfg env with ⟨t1, _ | reply1⟩ <;>
        (have ht1 : t1.countP isThreadCreate = 0 := by rw [hp] at hp1; exact hp1)
      · simp [hne, htc, hmc, hp, List.countP_cons, isThreadCreate, ht1]
      · by_cases hcond :
          reply1 = "" ∨ jsLtInt reply1.length cfg.fallbackReplyMinLength = true
        · rcases hq : runPass2 cfg env with ⟨t2, _ | e2 | s2⟩ <;>
            (have ht2 : t2.countP isThreadCreate = 0 := by rw [hq] at hp2; exact hp2) <;>
            simp [hne, htc, hmc, hp, hcond, hq, List.countP_cons,
              List.countP_append, isThreadCreate, ht1, ht2]
        · simp [hne, htc, hmc, hp, hcond, List.countP_cons, isThreadCreate, ht1]

/-- A JS `a || d` result is never empty when the default is not. -/
theorem jsOrString_ne_empty (o : Option String) (d : String) (hd : d ≠ "") :
    jsOrString o d ≠ "" := by
  unfold jsOrString
  rcases o with _ | s
  · exact hd
  · rcases hs : s == "" with _ | _
    · simp only [hs, Bool.false_eq_true, if_false]
      intro hcon
      rw [hcon] at hs
      simp at hs
    · simp only [hs, if_true]
      exact hd

/-- Pass 2 never resolves to an empty reply: the placeholder is substituted
for a falsy extraction. -/
theorem runPass2Run_ret_ne_empty (env : AskEnv) (s : String)
    (h : (runPass2Run env).2 = .ret s) : s ≠ "" := by
  unfold runPass2Run at h
  rcases henv : env.pass2RunCreate with e | rid
  · simp [henv] at h
  · rcases hw : waitForRunCompletion rid env.pass2Poll with ⟨wt, _ | e2 | snap⟩
    · simp [henv, hw] at h
    · simp [henv, hw] at h
    · rcases hml : env.pass2MessagesList with e | msgs
      · simp [henv, hw, hml] at h
      · simp [henv, hw, hml] at h
        subst h
        exact jsOrString_ne_empty _ _ (by decide)

theorem runPass2_ret_ne_empty (cfg : Config) (env : AskEnv) (s : String)
    (h : (runPass2 cfg env).2 = .ret s) : s ≠ "" := by
  unfold runPass2 at h
  split at h
  · rcases hcm : env.clarificationMessageCreate with e | u
    · simp [hcm] at h
    · rcases hq : runPass2Run env with ⟨rt, r2⟩
      simp [hcm, hq] at h
      refine runPass2Run_ret_ne_empty env s ?_
      rw [hq]
      simpa using h
  · exact runPass2Run_ret_ne_empty env s h

/-- The reply a successful `/ask` core computation hands to the speech
stage is never the empty string. -/
theorem askCore_reply_ne_empty (cfg : Config) (body : AskBody) (env : AskEnv)
    (t : List UpstreamCall) (s : String)
    (h : askCore cfg body env = (t, .reply s)) : s ≠ "" := by
  unfold askCore at h
  rcases hbt : body.text with _ | userText
  · rw [hbt] at h; simp at h
  · rw [hbt] at h
    by_cases hue : userText = ""
    · simp [hue] at h
    · rcases htc : env.threadCreate with e | tid
      · simp [hue, htc] at h
      · rcases hmc : env.userMessageCreate with e | u
        · simp [hue, htc, hmc] at h
        · rcases hp : runPass1 cfg env with ⟨t1, _ | reply1⟩
          · simp [hue, htc, hmc, hp] at h
          · by_cases hcond :
              reply1 = "" ∨ jsLtInt reply1.length cfg.fallbackReplyMinLength = true
            · rcases hq : runPass2 cfg env with ⟨t2, _ | e2 | s2⟩
              · simp [hue, htc, hmc, hp, hcond, hq] at h
              · simp [hue, htc, hmc, hp, hcond, hq] at h
              · simp [hue, htc, hmc, hp, hcond, hq] at h
                rw [← h.2]
                exact runPass2_ret_ne_empty cfg env s2 (by rw [hq])
            · simp [hue, htc, hmc, hp, hcond] at h
              rw [← h.2]
              intro hcon
              exact hcond (Or.inl hcon)

/-! ### Dispatch lemmas for the full route -/

theorem askHandler_of_core_badReq (cfg : Config) (body : AskBody) (env : AskEnv)
    (t : List UpstreamCall) (h : askCore cfg body env = (t, .badReq)) :
    askHandler cfg body env = (t, .badRequest "Missing text in request body") := by
  unfold askHandler
  simp only [h]

theorem askHandler_of_core_err (cfg : Config) (body : AskBody) (env : AskEnv)
    (t : List UpstreamCall) (e : String) (h : askCore cfg body env = (t, .err e)) :
    askHandler cfg body env = (t, .serverError "Failed to process assistant response" e) := by
  unfold askHandler
  simp only [h]

theorem askHandler_of_core_hang (cfg : Config) (body : AskBody) (env : AskEnv)
    (t : List UpstreamCall) (h : askCore cfg body env = (t, .hang)) :
    askHandler cfg body env = (t, .hang) := by
  unfold askHandler
  simp only [h]

/-- The audio field of the JSON response as a function of the synthesis
outcome (`server.js` line 159). -/
def audioFieldOf (ao : Option String) : Option String :=
  match ao with
  | some b64 => if b64 == "" then none else some ("data:audio/mp3;base64," ++ b64)
  | none => none

theorem askHandler_reply_speech (cfg : Config) (body : AskBody) (env : AskEnv)
    (t : List UpstreamCall) (s : String) (st : List UpstreamCall) (ao : Option String)
    (hcore : askCore cfg body env = (t, .reply s))
    (hsp : speechStage cfg env s = (st, ao)) :
    askHandler cfg body env = (t ++ st, .ok s (audioFieldOf ao)) := by
  unfold askHandler
  simp only [hcore, hsp]
  cases ao <;> rfl

/-- Predicates blind to speech calls count the same on the full route trace
as on the core trace. -/
theorem askHandler_countP_eq_core (cfg : Config) (body : AskBody) (env : AskEnv)
    (p : UpstreamCall → Bool) (hspeech : ∀ s, p (.speechCreate s) = false) :
    (askHandler cfg body env).1.countP p = (askCore cfg body env).1.countP p := by
  rcases hcore : askCore cfg body env with ⟨t0, out⟩
  cases out with
  | badReq => rw [askHandler_of_core_badReq cfg body env t0 hcore]
  | err e => rw [askHandler_of_core_err cfg body env t0 e hcore]
  | hang => rw [askHandler_of_core_hang cfg body env t0 hcore]
  | reply s =>
    rcases hsp : speechStage cfg env s with ⟨st, ao⟩
    have hst : st.countP p = 0 := by
      have h := speechStage_countP cfg env s p (hspeech s)
      rw [hsp] at h; exact h
    rw [askHandler_reply_speech cfg body env t0 s st ao hcore hsp]
    simp [List.countP_append, hst]

theorem askHandler_runCount (cfg : Config) (body : AskBody) (env : AskEnv) :
    (askHandler cfg body env).1.countP isRunCreate ≤ 2 := by
  rw [askHandler_countP_eq_core cfg body env isRunCreate (fun _ => rfl)]
  exact askCore_runCount cfg body env

/-! ### Branch equations of the core -/

/-- When validation passes, the thread and user message are created, and
the Pass 1 reply is insufficient, the core is Pass 2 composed after the
prefix calls. -/
def pass2Lift : JsResult String → CoreOut
  | .hang => .hang
  | .threw e => .err e
  | .ret s => .reply s

theorem askCore_pass2_eq (cfg : Config) (body : AskBody) (env : AskEnv)
    (userText : String) (t1 : List UpstreamCall) (r : String)
    (htext : body.text = some userText) (hne : userText ≠ "")
    (hth : ∃ tid, env.threadCreate = .ok tid)
    (hmc : env.userMessageCreate = .ok ())
    (hp : runPass1 cfg env = (t1, some r))
    (hins : r = "" ∨ jsLtInt r.length cfg.fallbackReplyMinLength = true) :
    askCore cfg body env =
      (.threadCreate :: .messageCreate userText :: (t1 ++ (runPass2 cfg env).1),
        pass2Lift (runPass2 cfg env).2) := by
  obtain ⟨tid, hth2⟩ := hth
  rcases hq : runPass2 cfg env with ⟨t2, _ | e2 | s2⟩ <;>
    simp [askCore, htext, hne, hth2, hmc, hp, hins, hq, pass2Lift]

theorem askCore_accept_eq (cfg : Config) (body : AskBody) (env : AskEnv)
    (userText : String) (t1 : List UpstreamCall) (r : String)
    (htext : body.text = some userText) (hne : userText ≠ "")
    (hth : ∃ tid, env.threadCreate = .ok tid)
    (hmc : env.userMessageCreate = .ok ())
    (hp : runPass1 cfg env = (t1, some r))
    (hacc : ¬(r = "" ∨ jsLtInt r.length cfg.fallbackReplyMinLength = true)) :
    askCore cfg body env =
      (.threadCreate :: .messageCreate userText :: t1, .reply r) := by
  obtain ⟨tid, hth2⟩ := hth
  simp [askCore, htext, hne, hth2, hmc, hp, hacc]

/-! ### Terminal-failure behaviour of the wait -/

theorem failure_not_waiting (s : String) (h : isFailureStatus s = true) :
    isWaitingStatus s = false := by
  unfold isFailureStatus at h
  simp only [Bool.or_eq_true, beq_iff_eq] at h
  rcases h with (h | h) | h <;> subst h <;> decide

theorem waitLoop_exit (runId : String) (cur : RunSnapshot)
    (rest : List (Except String RunSnapshot))
    (h : isWaitingStatus cur.status = false) :
    waitLoop runId cur rest = waitExit runId cur := by
  cases rest with
  | nil => unfold waitLoop; rw [h]; simp
  | cons hd tl => cases hd <;> (unfold waitLoop; rw [h]; simp)

/-- A first retrieve showing a terminal failure status makes the wait throw
the diagnostic message built from the status and `last_error`. -/
theorem waitForRunCompletion_failure (runId : String) (snap : RunSnapshot)
    (rest : List (Except String RunSnapshot))
    (h : isFailureStatus snap.status = true) :
    waitForRunCompletion runId (.ok snap :: rest) =
      ([.runRetrieve], .threw (runFailureMessage runId snap)) := by
  have h1 : waitForRunCompletion runId (.ok snap :: rest) =
      (.runRetrieve :: (waitLoop runId snap rest).1, (waitLoop runId snap rest).2) := rfl
  rw [h1, waitLoop_exit runId snap rest (failure_not_waiting _ h)]
  unfold waitExit
  rw [h]
  simp

/-! ### Pass 1 swallows its errors -/

/-- Some upstream call of Pass 1 fails: the run creation rejects, the wait
throws (terminal failure or tool-submission failure or a rejected
retrieve), or the message listing rejects. -/
def pass1Errored (env : AskEnv) : Prop :=
  (∃ e, env.pass1RunCreate = .error e) ∨
  (∃ rid, env.pass1RunCreate = .ok rid ∧
    ∃ e, (waitForRunCompletion rid env.pass1Poll).2 = .threw e) ∨
  (∃ rid, env.pass1RunCreate = .ok rid ∧
    (∃ snap, (waitForRunCompletion rid env.pass1Poll).2 = .ret snap) ∧
    ∃ e, env.pass1MessagesList = .error e)

theorem runPass1_swallows (cfg : Config) (env : AskEnv)
    (hvs : jsTruthyOptStr cfg.vectorStoreId = true) (herr : pass1Errored env) :
    (runPass1 cfg env).2 = some "" := by
  rcases herr with ⟨e, he⟩ | ⟨rid, hrid, e, hw⟩ | ⟨rid, hrid, ⟨snap, hw⟩, e, hml⟩
  · simp [runPass1, hvs, he]
  · rcases hwp : waitForRunCompletion rid env.pass1Poll with ⟨wt, res⟩
    have : res = .threw e := by rw [hwp] at hw; exact hw
    subst this
    simp [runPass1, hvs, hrid, hwp]
  · rcases hwp : waitForRunCompletion rid env.pass1Poll with ⟨wt, res⟩
    have : res = .ret snap := by rw [hwp] at hw; exact hw
    subst this
    simp [runPass1, hvs, hrid, hwp, hml]

/-- Pass 1 is skipped entirely when the vector store is not configured. -/
theorem runPass1_skip (cfg : Config) (env : AskEnv)
    (hvs : jsTruthyOptStr cfg.vectorStoreId = false) :
    runPass1 cfg env = ([], some "") := by
  simp [runPass1, hvs]

/-! ### Pass 2 outcome is that of its tail -/

theorem runPass2_snd (cfg : Config) (env : AskEnv)
    (hclar : cfg.fallbackStrategy = "RETRY_WITH_CLARIFICATION_PROMPT" →
      env.clarificationMessageCreate = .ok ()) :
    (runPass2 cfg env).2 = (runPass2Run env).2 := by
  unfold runPass2
  split
  case isTrue h =>
    have hstrat : cfg.fallbackStrategy = "RETRY_WITH_CLARIFICATION_PROMPT" := by
      have hb := (Bool.and_eq_true _ _).mp h
      exact eq_of_beq hb.1
    rw [hclar hstrat]
  case isFalse h => rfl

theorem runPass2Run_ret_eq (env : AskEnv) (rid2 : String) (snap : RunSnapshot)
    (msgs : List ThreadMessage)
    (hrc : env.pass2RunCreate = .ok rid2)
    (hwait : (waitForRunCompletion rid2 env.pass2Poll).2 = .ret snap)
    (hlist : env.pass2MessagesList = .ok msgs) :
    (runPass2Run env).2 =
      .ret (jsOrString (extractFirstValue msgs) fallbackPlaceholder) := by
  rcases hwp : waitForRunCompletion rid2 env.pass2Poll with ⟨wt, res⟩
  have : res = .ret snap := by rw [hwp] at hwait; exact hwait
  subst this
  simp [runPass2Run, hrc, hwp, hlist]

/-! ### Concrete sample data -/

/-- A run snapshot with the terminal success status. -/
def snapCompleted : RunSnapshot :=
  { status := "completed", required_action_type := none, toolSubmitOk := true,
    last_error := none }

/-- A run snapshot with the terminal failure status `failed`. -/
def snapFailed : RunSnapshot :=
  { status := "failed", required_action_type := none, toolSubmitOk := true,
    last_error := some { code := "server_error", message := "model overloaded" } }

/-- A one-message listing whose first content part carries the given text. -/
def msgsWith (s : String) : List ThreadMessage :=
  [{ content := [{ text := some { value := some s } }] }]

/-- Configuration with a vector store and the default strategy and
thresholds. -/
def cfgSample : Config :=
  { vectorStoreId := some "vs_1", fallbackReplyMinLength := 20,
    speechReplyMinLength := 10, fallbackStrategy := defaultFallbackStrategy,
    fallbackClarificationPrompt := defaultFallbackClarificationPrompt }

/-- Configuration with no vector store and the clarification strategy. -/
def cfgClar : Config :=
  { vectorStoreId := none, fallbackReplyMinLength := 20,
    speechReplyMinLength := 10,
    fallbackStrategy := "RETRY_WITH_CLARIFICATION_PROMPT",
    fallbackClarificationPrompt := defaultFallbackClarificationPrompt }

/-- Configuration with no vector store and the default strategy. -/
def cfgNoStore : Config :=
  { vectorStoreId := none, fallbackReplyMinLength := 20,
    speechReplyMinLength := 10, fallbackStrategy := defaultFallbackStrategy,
    fallbackClarificationPrompt := defaultFallbackClarificationPrompt }

/-- Configuration accepting very short grounded replies. -/
def cfgShort : Config :=
  { vectorStoreId := some "vs_1", fallbackReplyMinLength := 3,
    speechReplyMinLength := 10, fallbackStrategy := defaultFallbackStrategy,
    fallbackClarificationPrompt := defaultFallbackClarificationPrompt }

/-- A long grounded reply used in the scenarios. -/
def replyLong : String := "A thorough grounded answer about diversification."

/-- Environment in which every upstream call succeeds. -/
def envGood : AskEnv :=
  { threadCreate := .ok "th_1", userMessageCreate := .ok (),
    pass1RunCreate := .ok "run_1", pass1Poll := [.ok snapCompleted],
    pass1MessagesList := .ok (msgsWith replyLong),
    clarificationMessageCreate := .ok (), pass2RunCreate := .ok "run_2",
    pass2Poll := [.ok snapCompleted],
    pass2MessagesList := .ok (msgsWith "A general knowledge answer."),
    speech := .ok "QUJD" }

/-- Like `envGood`, but the grounded reply is very short. -/
def envShort : AskEnv :=
  { threadCreate := .ok "th_1", userMessageCreate := .ok (),
    pass1RunCreate := .ok "run_1", pass1Poll := [.ok snapCompleted],
    pass1MessagesList := .ok (msgsWith "Yes."),
    clarificationMessageCreate := .ok (), pass2RunCreate := .ok "run_2",
    pass2Poll := [.ok snapCompleted],
    pass2MessagesList := .ok (msgsWith "A general knowledge answer."),
    speech := .ok "QUJD" }

/-- Like `envGood`, but speech synthesis rejects. -/
def envSpeechFail : AskEnv :=
  { threadCreate := .ok "th_1", userMessageCreate := .ok (),
    pass1RunCreate := .ok "run_1", pass1Poll := [.ok snapCompleted],
    pass1MessagesList := .ok (msgsWith replyLong),
    clarificationMessageCreate := .ok (), pass2RunCreate := .ok "run_2",
    pass2Poll := [.ok snapCompleted],
    pass2MessagesList := .ok (msgsWith "A general knowledge answer."),
    speech := .error "tts 500" }

/-- Environment where the Pass 1 run creation rejects and the Pass 2 run
ends in the terminal failure status. -/
def envC2 : AskEnv :=
  { threadCreate := .ok "th_1", userMessageCreate := .ok (),
    pass1RunCreate := .error "pass1 connection reset", pass1Poll := [],
    pass1MessagesList := .ok [],
    clarificationMessageCreate := .ok (), pass2RunCreate := .ok "run_2",
    pass2Poll := [.ok snapFailed], pass2MessagesList := .ok [],
    speech := .ok "QUJD" }

/-- Environment where the clarification append rejects. -/
def envClarFail : AskEnv :=
  { threadCreate := .ok "th_1", userMessageCreate := .ok (),
    pass1RunCreate := .ok "run_1", pass1Poll := [.ok snapCompleted],
    pass1MessagesList := .ok [],
    clarificationMessageCreate := .error "message create failed",
    pass2RunCreate := .ok "run_2", pass2Poll := [.ok snapCompleted],
    pass2MessagesList := .ok (msgsWith "A general knowledge answer."),
    speech := .ok "QUJD" }

/-- Environment where the Pass 2 listing yields no extractable text. -/
def envEmptyFallback : AskEnv :=
  { threadCreate := .ok "th_1", userMessageCreate := .ok (),
    pass1RunCreate := .ok "run_1", pass1Poll := [.ok snapCompleted],
    pass1MessagesList := .ok [],
    clarificationMessageCreate := .ok (), pass2RunCreate := .ok "run_2",
    pass2Poll := [.ok snapCompleted], pass2MessagesList := .ok [],
    speech := .ok "QUJD" }

/-- The request body of the short-question scenario. -/
def bodyHi : AskBody := { text := some "Hi", user_id := none }

/-- The core trace of the accepted-Pass-1 scenario. -/
def traceAccept : List UpstreamCall :=
  [.threadCreate, .messageCreate "Hi", .runCreate .grounded, .runRetrieve,
    .messagesList]

/-- `s == ""` is false for a non-empty string. -/
theorem beq_empty_false_of_ne (s : String) (h : s ≠ "") : (s == "") = false := by
  rcases hb : s == "" with _ | _
  · rfl
  · exact absurd (eq_of_beq hb) h

/-! ### C4 -/

/-- C4: a `POST /ask` request whose body has a missing or empty `text`
field receives the 400 invalid-request response, and the empty trace shows
no upstream call of any kind was made. -/
theorem ask_missing_text_rejected_without_upstream_calls
    (cfg : Config) (body : AskBody) (env : AskEnv)
    (h : body.text = none ∨ body.text = some "") :
    askHandler cfg body env = ([], .badRequest "Missing text in request body") := by
  have hc : askCore cfg body env = ([], .badReq) := by
    rcases h with h | h <;> simp [askCore, h]
  exact askHandler_of_core_badReq cfg body env [] hc

/-- Witness for C4 at an empty-text request. -/
theorem ask_missing_text_rejected_witness :
    askHandler cfgSample { text := some "", user_id := none } envGood =
      ([], .badRequest "Missing text in request body") :=
  ask_missing_text_rejected_without_upstream_calls cfgSample
    { text := some "", user_id := none } envGood (Or.inr rfl)

/-! ### C10 -/

/-- C10: two `POST /ask` requests differing only in the optional `user_id`
field behave identically — the field is never read, so the trace of
upstream calls and the response are the same. -/
theorem ask_user_id_has_no_effect (cfg : Config) (t : Option String)
    (u1 u2 : Option String) (env : AskEnv) :
    askHandler cfg { text := t, user_id := u1 } env =
      askHandler cfg { text := t, user_id := u2 } env := rfl

/-! ### C7 -/

/-- C7: when a `POST /ask` request succeeds with a final reply shorter than
the configured speech minimum, the response audio field is null and the
trace contains no speech-synthesis call. -/
theorem ask_short_reply_gets_no_audio (cfg : Config) (body : AskBody)
    (env : AskEnv) (t : List UpstreamCall) (txt : String) (audio : Option String)
    (h : askHandler cfg body env = (t, .ok txt audio))
    (hlt : (txt.length : Int) < cfg.speechReplyMinLength) :
    audio = none ∧ t.countP isSpeechCreate = 0 := by
  have hge : jsGeInt txt.length cfg.speechReplyMinLength = false :=
    decide_eq_false (not_le.mpr hlt)
  rcases hcore : askCore cfg body env with ⟨t0, out⟩
  have ht0 : t0.countP isSpeechCreate = 0 := by
    have hcc := askCore_countP cfg body env isSpeechCreate rfl (fun _ => rfl)
      rfl rfl rfl rfl rfl
    rw [hcore] at hcc; exact hcc
  cases out with
  | badReq =>
    rw [askHandler_of_core_badReq cfg body env t0 hcore] at h
    simp at h
  | err e =>
    rw [askHandler_of_core_err cfg body env t0 e hcore] at h
    simp at h
  | hang =>
    rw [askHandler_of_core_hang cfg body env t0 hcore] at h
    simp at h
  | reply s =>
    rcases hsp : speechStage cfg env s with ⟨st, ao⟩
    rw [askHandler_reply_speech cfg body env t0 s st ao hcore hsp] at h
    simp only [Prod.mk.injEq, AskResponse.ok.injEq] at h
    obtain ⟨hteq, hseq, haeq⟩ := h
    subst hseq
    have hsp2 : speechStage cfg env s = ([], none) := by
      unfold speechStage
      rw [hge]
      simp
    rw [hsp2] at hsp
    simp only [Prod.mk.injEq] at hsp
    obtain ⟨hst, hao⟩ := hsp
    constructor
    · rw [← haeq, ← hao]; rfl
    · rw [← hteq, ← hst]
      simp [List.countP_append, ht0]

/-- Witness for C7: a short accepted grounded reply yields no audio and no
synthesis call. -/
theorem ask_short_reply_gets_no_audio_witness :
    (none : Option String) = none ∧ traceAccept.countP isSpeechCreate = 0 :=
  ask_short_reply_gets_no_audio cfgShort bodyHi envShort traceAccept "Yes."
    none (by decide) (by decide)

/-! ### C8 -/

/-- C8: when the final reply of a `POST /ask` request reaches the speech
minimum, exactly one speech-synthesis call appears in the trace; and when
synthesis rejects, the request still succeeds with the reply text and a
null audio field. -/
theorem ask_speech_attempt_and_resilience (cfg : Config) (body : AskBody)
    (env : AskEnv) :
    (∀ t txt audio, askHandler cfg body env = (t, .ok txt audio) →
      cfg.speechReplyMinLength ≤ (txt.length : Int) →
      t.countP isSpeechCreate = 1)
    ∧ (∀ t0 txt e, askCore cfg body env = (t0, .reply txt) →
      cfg.speechReplyMinLength ≤ (txt.length : Int) →
      env.speech = .error e →
      askHandler cfg body env = (t0 ++ [.speechCreate txt], .ok txt none)) := by
  constructor
  · intro t txt audio h hge
    rcases hcore : askCore cfg body env with ⟨t0, out⟩
    have ht0 : t0.countP isSpeechCreate = 0 := by
      have hcc := askCore_countP cfg body env isSpeechCreate rfl (fun _ => rfl)
        rfl rfl rfl rfl rfl
      rw [hcore] at hcc; exact hcc
    cases out with
    | badReq =>
      rw [askHandler_of_core_badReq cfg body env t0 hcore] at h
      simp at h
    | err e =>
      rw [askHandler_of_core_err cfg body env t0 e hcore] at h
      simp at h
    | hang =>
      rw [askHandler_of_core_hang cfg body env t0 hcore] at h
      simp at h
    | reply s =>
      rcases hsp : speechStage cfg env s with ⟨st, ao⟩
      rw [askHandler_reply_speech cfg body env t0 s st ao hcore hsp] at h
      simp only [Prod.mk.injEq, AskResponse.ok.injEq] at h
      obtain ⟨hteq, hseq, haeq⟩ := h
      subst hseq
      have hnz := askCore_reply_ne_empty cfg body env t0 s hcore
      have hcond : (!(s == "") &&
          jsGeInt s.length cfg.speechReplyMinLength) = true := by
        rw [beq_empty_false_of_ne s hnz]
        simp [jsGeInt, hge]
      have hsp2 : ∃ ao2, speechStage cfg env s = ([.speechCreate s], ao2) := by
        unfold speechStage
        rw [hcond]
        rcases envs : env.speech with e | b64
        · exact ⟨none, by simp⟩
        · exact ⟨some b64, by simp⟩
      obtain ⟨ao2, hsp2⟩ := hsp2
      rw [hsp2] at hsp
      simp only [Prod.mk.injEq] at hsp
      obtain ⟨hst, hao⟩ := hsp
      rw [← hteq, ← hst]
      simp [List.countP_append, List.countP_cons, ht0, isSpeechCreate]
  · intro t0 txt e hcore hge hserr
    have hnz := askCore_reply_ne_empty cfg body env t0 txt hcore
    have hcond : (!(txt == "") &&
        jsGeInt txt.length cfg.speechReplyMinLength) = true := by
      rw [beq_empty_false_of_ne txt hnz]
      simp [jsGeInt, hge]
    have hsp : speechStage cfg env txt = ([.speechCreate txt], none) := by
      unfold speechStage
      rw [hcond, hserr]
      simp
    have hh := askHandler_reply_speech cfg body env t0 txt _ _ hcore hsp
    simpa [audioFieldOf] using hh

/-- Witness for C8: a long accepted grounded reply triggers exactly one
synthesis call, and with synthesis rejecting the response still carries the
text with a null audio field. -/
theorem ask_speech_attempt_and_resilience_witness :
    (traceAccept ++ [UpstreamCall.speechCreate replyLong]).countP isSpeechCreate = 1 ∧
    askHandler cfgSample bodyHi envSpeechFail =
      (traceAccept ++ [UpstreamCall.speechCreate replyLong], .ok replyLong none) := by
  have h := ask_speech_attempt_and_resilience cfgSample bodyHi envSpeechFail
  have h2 : askHandler cfgSample bodyHi envSpeechFail =
      (traceAccept ++ [UpstreamCall.speechCreate replyLong], .ok replyLong none) :=
    h.2 traceAccept replyLong "tts 500" (by decide) (by decide) rfl
  exact ⟨h.1 (traceAccept ++ [UpstreamCall.speechCreate replyLong]) replyLong none h2
    (by decide), h2⟩

/-! ### C2 -/

/-- C2: any upstream error raised during Pass 1 is swallowed — the reply is
treated as empty and the request proceeds exactly as Pass 2 dictates, the
error never reaching the caller; a terminal run failure (failed, expired or
cancelled) makes the wait throw the diagnostic message; and a Pass 2 throw
surfaces as the 500 server-error response carrying that message as
detail. -/
theorem ask_pass1_swallowed_pass2_fatal (cfg : Config) (body : AskBody)
    (env : AskEnv) (userText : String) (tid : String)
    (htext : body.text = some userText) (hne : userText ≠ "")
    (hth : env.threadCreate = .ok tid) (hmc : env.userMessageCreate = .ok ()) :
    (jsTruthyOptStr cfg.vectorStoreId = true → pass1Errored env →
      ∃ t1, runPass1 cfg env = (t1, some "") ∧
        askCore cfg body env =
          (.threadCreate :: .messageCreate userText ::
            (t1 ++ (runPass2 cfg env).1), pass2Lift (runPass2 cfg env).2))
    ∧ (∀ rid snap rest, isFailureStatus snap.status = true →
        waitForRunCompletion rid (.ok snap :: rest) =
          ([.runRetrieve], .threw (runFailureMessage rid snap)))
    ∧ (∀ e t1 r, runPass1 cfg env = (t1, some r) →
        (r = "" ∨ jsLtInt r.length cfg.fallbackReplyMinLength = true) →
        (runPass2 cfg env).2 = .threw e →
        (askHandler cfg body env).2 =
          .serverError "Failed to process assistant response" e) := by
  refine ⟨?_, ?_, ?_⟩
  · intro hvs herr
    have hsw := runPass1_swallows cfg env hvs herr
    rcases hp : runPass1 cfg env with ⟨t1, r1⟩
    have hr1 : r1 = some "" := by rw [hp] at hsw; exact hsw
    subst hr1
    exact ⟨t1, rfl, askCore_pass2_eq cfg body env userText t1 "" htext hne
      ⟨tid, hth⟩ hmc hp (Or.inl rfl)⟩
  · intro rid snap rest hfail
    exact waitForRunCompletion_failure rid snap rest hfail
  · intro e t1 r hp hins hq2
    have hcore := askCore_pass2_eq cfg body env userText t1 r htext hne
      ⟨tid, hth⟩ hmc hp hins
    rw [hq2] at hcore
    simp only [pass2Lift] at hcore
    rw [askHandler_of_core_err cfg body env _ e hcore]

/-- Witness for C2: a rejected Pass 1 run creation is swallowed while the
Pass 2 run failing terminally yields the 500 response with the diagnostic
detail. -/
theorem ask_pass1_swallowed_pass2_fatal_witness :
    (∃ t1, runPass1 cfgSample envC2 = (t1, some "") ∧
      askCore cfgSample bodyHi envC2 =
        (.threadCreate :: .messageCreate "Hi" ::
          (t1 ++ (runPass2 cfgSample envC2).1),
          pass2Lift (runPass2 cfgSample envC2).2))
    ∧ waitForRunCompletion "run_9" [.ok snapFailed] =
        ([.runRetrieve], .threw (runFailureMessage "run_9" snapFailed))
    ∧ (askHandler cfgSample bodyHi envC2).2 =
        .serverError "Failed to process assistant response"
          (runFailureMessage "run_2" snapFailed) := by
  have h := ask_pass1_swallowed_pass2_fatal cfgSample bodyHi envC2 "Hi" "th_1"
    rfl (by decide) rfl rfl
  exact ⟨h.1 rfl (Or.inl ⟨"pass1 connection reset", rfl⟩),
    h.2.1 "run_9" snapFailed [] (by decide),
    h.2.2 (runFailureMessage "run_2" snapFailed)
      [UpstreamCall.runCreate .grounded] "" (by decide) (Or.inl rfl) (by decide)⟩

/-! ### C5 -/

/-- The loaded clarification prompt is never empty: an empty or absent
environment value falls back to the non-empty default. -/
theorem envOr_default_ne_empty (v : Option String) :
    envOr v defaultFallbackClarificationPrompt ≠ "" :=
  jsOrString_ne_empty v defaultFallbackClarificationPrompt (by decide)

/-- C5: on a request that reaches Pass 2, the clarification instruction is
appended to the thread immediately before the Pass 2 run creation exactly
when the configured strategy is `RETRY_WITH_CLARIFICATION_PROMPT` (and the
append succeeds); under any other strategy the only message ever appended
is the user text. -/
theorem ask_clarification_iff_strategy (cfg : Config) (body : AskBody)
    (env : AskEnv) (userText : String) (tid : String) (pv : Option String)
    (t1 : List UpstreamCall) (r : String)
    (hprompt : cfg.fallbackClarificationPrompt =
      envOr pv defaultFallbackClarificationPrompt)
    (htext : body.text = some userText) (hne : userText ≠ "")
    (hth : env.threadCreate = .ok tid) (hmc : env.userMessageCreate = .ok ())
    (hp : runPass1 cfg env = (t1, some r))
    (hins : r = "" ∨ jsLtInt r.length cfg.fallbackReplyMinLength = true) :
    (cfg.fallbackStrategy = "RETRY_WITH_CLARIFICATION_PROMPT" →
      env.clarificationMessageCreate = .ok () →
      ∃ pre post, (askHandler cfg body env).1 =
        pre ++ UpstreamCall.messageCreate cfg.fallbackClarificationPrompt ::
          UpstreamCall.runCreate .fallback :: post)
    ∧ (cfg.fallbackStrategy ≠ "RETRY_WITH_CLARIFICATION_PROMPT" →
      (askHandler cfg body env).1.countP isMsgCreate = 1) := by
  have hpr : cfg.fallbackClarificationPrompt ≠ "" := by
    rw [hprompt]; exact envOr_default_ne_empty pv
  constructor
  · intro hstrat hclarok
    have hdo : (cfg.fallbackStrategy == "RETRY_WITH_CLARIFICATION_PROMPT" &&
        !(cfg.fallbackClarificationPrompt == "")) = true := by
      rw [hstrat, beq_empty_false_of_ne _ hpr]
      rfl
    obtain ⟨rest, hr2⟩ := runPass2Run_head env
    rcases hq2 : runPass2Run env with ⟨rt, r2⟩
    have hrt : rt = .runCreate .fallback :: rest := by rw [hq2] at hr2; exact hr2
    have hq : runPass2 cfg env =
        (.messageCreate cfg.fallbackClarificationPrompt ::
          .runCreate .fallback :: rest, r2) := by
      unfold runPass2
      simp [hdo, hclarok, hq2, hrt]
    have hcore := askCore_pass2_eq cfg body env userText t1 r htext hne
      ⟨tid, hth⟩ hmc hp hins
    rw [hq] at hcore
    cases r2 with
    | hang =>
      simp only [pass2Lift] at hcore
      rw [askHandler_of_core_hang cfg body env _ hcore]
      exact ⟨.threadCreate :: .messageCreate userText :: t1, rest, by simp⟩
    | threw e2 =>
      simp only [pass2Lift] at hcore
      rw [askHandler_of_core_err cfg body env _ e2 hcore]
      exact ⟨.threadCreate :: .messageCreate userText :: t1, rest, by simp⟩
    | ret s2 =>
      simp only [pass2Lift] at hcore
      rcases hsp : speechStage cfg env s2 with ⟨st, ao⟩
      rw [askHandler_reply_speech cfg body env _ s2 st ao hcore hsp]
      exact ⟨.threadCreate :: .messageCreate userText :: t1, rest ++ st, by simp⟩
  · intro hstrat
    rw [askHandler_countP_eq_core cfg body env isMsgCreate (fun _ => rfl)]
    have hcore := askCore_pass2_eq cfg body env userText t1 r htext hne
      ⟨tid, hth⟩ hmc hp hins
    rw [hcore]
    have h1 : t1.countP isMsgCreate = 0 := by
      have h := runPass1_countP cfg env isMsgCreate rfl rfl rfl rfl
      rw [hp] at h; exact h
    have h2 := runPass2_msgCount_of_other_strategy cfg env hstrat
    simp [List.countP_cons, List.countP_append, isMsgCreate, h1, h2]

/-- Witness for C5: under the clarification strategy the clarification
message immediately precedes the fallback run; under the default strategy
only the user message is ever appended. -/
theorem ask_clarification_iff_strategy_witness :
    (∃ pre post, (askHandler cfgClar bodyHi envGood).1 =
      pre ++ UpstreamCall.messageCreate cfgClar.fallbackClarificationPrompt ::
        UpstreamCall.runCreate .fallback :: post) ∧
    (askHandler cfgNoStore bodyHi envGood).1.countP isMsgCreate = 1 := by
  have hA := ask_clarification_iff_strategy cfgClar bodyHi envGood "Hi" "th_1"
    none [] "" rfl rfl (by decide) rfl rfl (by decide) (Or.inl rfl)
  have hB := ask_clarification_iff_strategy cfgNoStore bodyHi envGood "Hi" "th_1"
    none [] "" rfl rfl (by decide) rfl rfl (by decide) (Or.inl rfl)
  exact ⟨hA.1 rfl rfl, hB.2 (by decide)⟩

/-! ### C6 -/

/-- C6: on a request that reaches Pass 2 and whose Pass 2 extraction fails
or yields nothing, the final reply is the fixed placeholder, the request
succeeds with it regardless of its length, and no third run creation ever
occurs. -/
theorem ask_pass2_placeholder_final (cfg : Config) (body : AskBody)
    (env : AskEnv) (userText tid : String) (t1 : List UpstreamCall) (r : String)
    (rid2 : String) (snap : RunSnapshot) (msgs : List ThreadMessage)
    (htext : body.text = some userText) (hne : userText ≠ "")
    (hth : env.threadCreate = .ok tid) (hmc : env.userMessageCreate = .ok ())
    (hp : runPass1 cfg env = (t1, some r))
    (hins : r = "" ∨ jsLtInt r.length cfg.fallbackReplyMinLength = true)
    (hclar : cfg.fallbackStrategy = "RETRY_WITH_CLARIFICATION_PROMPT" →
      env.clarificationMessageCreate = .ok ())
    (hrc : env.pass2RunCreate = .ok rid2)
    (hwait : (waitForRunCompletion rid2 env.pass2Poll).2 = .ret snap)
    (hlist : env.pass2MessagesList = .ok msgs)
    (hext : extractFirstValue msgs = none ∨ extractFirstValue msgs = some "") :
    (∃ audio, (askHandler cfg body env).2 = .ok fallbackPlaceholder audio)
    ∧ (askHandler cfg body env).1.countP isRunCreate ≤ 2 := by
  have hret : (runPass2 cfg env).2 = .ret fallbackPlaceholder := by
    rw [runPass2_snd cfg env hclar,
      runPass2Run_ret_eq env rid2 snap msgs hrc hwait hlist]
    rcases hext with h | h <;> rw [h] <;> rfl
  have hcore := askCore_pass2_eq cfg body env userText t1 r htext hne
    ⟨tid, hth⟩ hmc hp hins
  rw [hret] at hcore
  simp only [pass2Lift] at hcore
  constructor
  · rcases hsp : speechStage cfg env fallbackPlaceholder with ⟨st, ao⟩
    rw [askHandler_reply_speech cfg body env _ fallbackPlaceholder st ao hcore hsp]
    exact ⟨audioFieldOf ao, rfl⟩
  · exact askHandler_runCount cfg body env

/-- Witness for C6: a Pass 2 listing with no extractable text yields the
placeholder reply over a trace with at most two run creations. -/
theorem ask_pass2_placeholder_final_witness :
    (∃ audio, (askHandler cfgNoStore bodyHi envEmptyFallback).2 =
      .ok fallbackPlaceholder audio)
    ∧ (askHandler cfgNoStore bodyHi envEmptyFallback).1.countP isRunCreate ≤ 2 :=
  ask_pass2_placeholder_final cfgNoStore bodyHi envEmptyFallback "Hi" "th_1"
    [] "" "run_2" snapCompleted [] rfl (by decide) rfl rfl (by decide)
    (Or.inl rfl) (fun _ => rfl) rfl (by decide) rfl (Or.inl rfl)

/-! ### C1 -/

/-- C1 counterexample: with no document store configured (Pass 1 skipped,
yielding no reply) and the clarification strategy, a failing clarification
append aborts the request with a 500 before the Pass 2 run is created —
zero Pass 2 attempts occur instead of exactly one. -/
theorem ask_pass2_attempt_preempted_cex :
    jsTruthyOptStr cfgClar.vectorStoreId = false ∧
    (askHandler cfgClar bodyHi envClarFail).1.countP (isRunCreateKind .fallback) = 0 ∧
    (askHandler cfgClar bodyHi envClarFail).2 =
      .serverError "Failed to process assistant response" "message create failed" := by
  decide

/-- C1 (amended): once the thread and user message are created, (a) a
non-empty Pass 1 reply at or above the grounded minimum is final and no
Pass 2 run is created; (b) when Pass 1 yields no reply or a too-short
reply, exactly one Pass 2 run creation occurs provided the clarification
append (issued only under the clarification strategy) does not fail; (c)
with no document store configured Pass 1 is skipped (no grounded run) and
the single Pass 2 run always occurs under the same proviso. -/
theorem ask_two_pass_protocol (cfg : Config) (body : AskBody) (env : AskEnv)
    (userText tid : String)
    (htext : body.text = some userText) (hne : userText ≠ "")
    (hth : env.threadCreate = .ok tid) (hmc : env.userMessageCreate = .ok ())
    (hclar : cfg.fallbackStrategy = "RETRY_WITH_CLARIFICATION_PROMPT" →
      env.clarificationMessageCreate = .ok ()) :
    (∀ t1 r, runPass1 cfg env = (t1, some r) → r ≠ "" →
      jsLtInt r.length cfg.fallbackReplyMinLength = false →
      (askHandler cfg body env).1.countP (isRunCreateKind .fallback) = 0 ∧
      ∃ audio, (askHandler cfg body env).2 = .ok r audio)
    ∧ (∀ t1 r, runPass1 cfg env = (t1, some r) →
      (r = "" ∨ jsLtInt r.length cfg.fallbackReplyMinLength = true) →
      (askHandler cfg body env).1.countP (isRunCreateKind .fallback) = 1)
    ∧ (jsTruthyOptStr cfg.vectorStoreId = false →
      (askHandler cfg body env).1.countP (isRunCreateKind .grounded) = 0 ∧
      (askHandler cfg body env).1.countP (isRunCreateKind .fallback) = 1) := by
  refine ⟨?_, ?_, ?_⟩
  · intro t1 r hp hrne hlt
    have hacc : ¬(r = "" ∨ jsLtInt r.length cfg.fallbackReplyMinLength = true) := by
      rintro (h | h)
      · exact hrne h
      · rw [hlt] at h; exact Bool.false_ne_true h
    have hcore := askCore_accept_eq cfg body env userText t1 r htext hne
      ⟨tid, hth⟩ hmc hp hacc
    have h1 : t1.countP (isRunCreateKind .fallback) = 0 := by
      have h := runPass1_countP cfg env (isRunCreateKind .fallback)
        (by decide) rfl rfl rfl
      rw [hp] at h; exact h
    constructor
    · rw [askHandler_countP_eq_core cfg body env _ (fun _ => rfl), hcore]
      simp [List.countP_cons, isRunCreateKind, h1]
    · rcases hsp : speechStage cfg env r with ⟨st, ao⟩
      rw [askHandler_reply_speech cfg body env _ r st ao hcore hsp]
      exact ⟨audioFieldOf ao, rfl⟩
  · intro t1 r hp hins
    have hcore := askCore_pass2_eq cfg body env userText t1 r htext hne
      ⟨tid, hth⟩ hmc hp hins
    rw [askHandler_countP_eq_core cfg body env _ (fun _ => rfl), hcore]
    have h1 : t1.countP (isRunCreateKind .fallback) = 0 := by
      have h := runPass1_countP cfg env (isRunCreateKind .fallback)
        (by decide) rfl rfl rfl
      rw [hp] at h; exact h
    have h2 := runPass2_fallbackCount cfg env hclar
    simp [List.countP_cons, List.countP_append, isRunCreateKind, h1, h2]
  · intro hvs
    have hp := runPass1_skip cfg env hvs
    have hcore := askCore_pass2_eq cfg body env userText [] "" htext hne
      ⟨tid, hth⟩ hmc hp (Or.inl rfl)
    constructor
    · rw [askHandler_countP_eq_core cfg body env _ (fun _ => rfl), hcore]
      have h2 := runPass2_countP cfg env (isRunCreateKind .grounded)
        (fun _ => rfl) (by decide) rfl rfl rfl
      simp [List.countP_cons, List.countP_append, isRunCreateKind, h2]
    · rw [askHandler_countP_eq_core cfg body env _ (fun _ => rfl), hcore]
      have h2 := runPass2_fallbackCount cfg env hclar
      simp [List.countP_cons, List.countP_append, isRunCreateKind, h2]

/-- Witness for the amended C1 on the three scenarios: accepted grounded
reply, insufficient reply with one fallback attempt, and skipped Pass 1
with one fallback attempt. -/
theorem ask_two_pass_protocol_witness :
    ((askHandler cfgSample bodyHi envGood).1.countP (isRunCreateKind .fallback) = 0 ∧
      ∃ audio, (askHandler cfgSample bodyHi envGood).2 = .ok replyLong audio) ∧
    (askHandler cfgSample bodyHi envC2).1.countP (isRunCreateKind .fallback) = 1 ∧
    ((askHandler cfgNoStore bodyHi envGood).1.countP (isRunCreateKind .grounded) = 0 ∧
      (askHandler cfgNoStore bodyHi envGood).1.countP (isRunCreateKind .fallback) = 1) := by
  have hA := ask_two_pass_protocol cfgSample bodyHi envGood "Hi" "th_1"
    rfl (by decide) rfl rfl (fun _ => rfl)
  have hB := ask_two_pass_protocol cfgSample bodyHi envC2 "Hi" "th_1"
    rfl (by decide) rfl rfl (fun _ => rfl)
  have hC := ask_two_pass_protocol cfgNoStore bodyHi envGood "Hi" "th_1"
    rfl (by decide) rfl rfl (fun _ => rfl)
  exact ⟨hA.1 [.runCreate .grounded, .runRetrieve, .messagesList] replyLong
      (by decide) (by decide) (by decide),
    hB.2.1 [.runCreate .grounded] "" (by decide) (Or.inl rfl),
    hC.2.2 rfl⟩

/-! ### C9 -/

/-- C9 counterexample: an empty-text request issues no upstream calls at
all, so no Conversation Thread is created for it — refuting "exactly one
new Conversation Thread is created" for every request. -/
theorem ask_no_thread_for_invalid_request_cex :
    askHandler cfgSample { text := some "", user_id := none } envGood =
      ([], .badRequest "Missing text in request body") ∧
    (askHandler cfgSample { text := some "", user_id := none } envGood).1.countP
      isThreadCreate = 0 := by decide

/-- C9 (amended): every request issues at most two run creations, and every
request with non-empty text issues exactly one thread-creation call. -/
theorem ask_run_and_thread_bounds (cfg : Config) (body : AskBody) (env : AskEnv) :
    (askHandler cfg body env).1.countP isRunCreate ≤ 2 ∧
    (∀ userText, body.text = some userText → userText ≠ "" →
      (askHandler cfg body env).1.countP isThreadCreate = 1) := by
  constructor
  · exact askHandler_runCount cfg body env
  · intro u hbt hneu
    rw [askHandler_countP_eq_core cfg body env isThreadCreate (fun _ => rfl)]
    exact askCore_threadCount cfg body env u hbt hneu

/-- Witness for the amended C9. -/
theorem ask_run_and_thread_bounds_witness :
    (askHandler cfgSample bodyHi envGood).1.countP isRunCreate ≤ 2 ∧
    (askHandler cfgSample bodyHi envGood).1.countP isThreadCreate = 1 := by
  have h := ask_run_and_thread_bounds cfgSample bodyHi envGood
  exact ⟨h.1, h.2 "Hi" rfl (by decide)⟩

/-! ### C3 -/

/-- Parsed session body lacking the credential. -/
def sessionNoCred : SessionData := { client_secret := none }

/-- Upstream fetch outcome: HTTP 200 whose body lacks the credential. -/
def fetchNoCred : FetchOutcome :=
  { ok := true, status := 200, bodyText := "", jsonData := .ok sessionNoCred }

/-- A usable ephemeral credential. -/
def credTok : ClientSecret := { value := some "eph_tok", expires_at := 1234 }

/-- Parsed session body carrying the credential. -/
def sessionWithCred : SessionData := { client_secret := some credTok }

/-- Upstream fetch outcome carrying a usable credential. -/
def fetchWithCred : FetchOutcome :=
  { ok := true, status := 200, bodyText := "", jsonData := .ok sessionWithCred }

/-- C3 counterexample: the `src/server.js` route returns status 200 with
the raw parsed body even though it lacks any usable credential. -/
theorem token_raw_200_without_credential_cex :
    lacksCredential sessionNoCred = true ∧
    tokenRoute (.ok fetchNoCred) = .okRaw sessionNoCred := by decide

/-- C3 (amended): the checked variant of the route (src/unnamed/part_000)
responds 500 whenever the parsed body lacks a usable credential, and any
200 it returns carries a non-empty credential; the plain `src/server.js`
variant instead passes the raw body through with 200. -/
theorem token_checked_guards_credential (resp : FetchOutcome) (data : SessionData)
    (hok : resp.ok = true) (hjson : resp.jsonData = .ok data)
    (hlack : lacksCredential data = true) :
    tokenRouteChecked (.ok resp) =
      .serverError "Missing client_secret in OpenAI response" ∧
    (∀ fr v exp, tokenRouteChecked fr = .okToken v exp → v ≠ "") := by
  constructor
  · unfold lacksCredential at hlack
    rcases hcs : data.client_secret with _ | cs
    · simp [tokenRouteChecked, hok, hjson, hcs]
    · rcases hv : cs.value with _ | v
      · simp [tokenRouteChecked, hok, hjson, hcs, hv]
      · simp only [hcs, hv] at hlack
        simp [tokenRouteChecked, hok, hjson, hcs, hv, hlack]
  · intro fr v exp h
    rcases fr with e | resp2
    · simp [tokenRouteChecked] at h
    · rcases ho : resp2.ok with _ | _
      · simp [tokenRouteChecked, ho] at h
      · rcases hj : resp2.jsonData with e2 | d2
        · simp [tokenRouteChecked, ho, hj] at h
        · rcases hcs : d2.client_secret with _ | cs
          · simp [tokenRouteChecked, ho, hj, hcs] at h
          · rcases hv : cs.value with _ | w
            · simp [tokenRouteChecked, ho, hj, hcs, hv] at h
            · rcases hw : w == "" with _ | _
              · simp [tokenRouteChecked, ho, hj, hcs, hv, hw] at h
                rw [← h.1]
                intro hcon
                rw [hcon] at hw
                simp at hw
              · simp [tokenRouteChecked, ho, hj, hcs, hv, hw] at h

/-- Witness for the amended C3. -/
theorem token_checked_guards_credential_witness :
    tokenRouteChecked (.ok fetchNoCred) =
      .serverError "Missing client_secret in OpenAI response" ∧
    ("eph_tok" : String) ≠ "" := by
  have h := token_checked_guards_credential fetchNoCred sessionNoCred rfl rfl
    (by decide)
  exact ⟨h.1, h.2 (.ok fetchWithCred) "eph_tok" 1234 (by decide)⟩

end Sandbox
